import Mathlib

/-!
Verification development for the CodeNexlify browser-side UI modules.

The JavaScript sources are shallowly embedded: each class's mutable fields
become a Lean structure, each method a pure state transformer, and the
browser environment (localStorage, fetch, the document, callback outcomes)
is passed explicitly.  DOM-only concerns (CSS injection, logging text,
aria attributes, transition timing bookkeeping) are omitted; every storage
access, state update, guard and catch branch is kept.
-/

/-! ## Browser localStorage model

`localStorage` is an association list of string keys to string values.
A `fails` flag models the storage throwing (quota / privacy mode): every
`getItem`/`setItem` then raises, which the embedded code observes through
`Except`.  Each access appends the touched key to `log`, so frame
properties about which keys an operation touches can be stated.
-/

def sget : List (String × String) → String → Option String
  | [], _ => none
  | (k, v) :: rest, key => if k = key then some v else sget rest key

def sset : List (String × String) → String → String → List (String × String)
  | [], key, val => [(key, val)]
  | (k, v) :: rest, key, val =>
      if k = key then (k, val) :: rest else (k, v) :: sset rest key val

def serase : List (String × String) → String → List (String × String)
  | [], _ => []
  | (k, v) :: rest, key => if k = key then serase rest key else (k, v) :: serase rest key

structure Storage where
  data : List (String × String)
  fails : Bool
  log : List String
deriving DecidableEq, Repr

def Storage.getItem (s : Storage) (key : String) : Except Unit (Option String) × Storage :=
  ((if s.fails then .error () else .ok (sget s.data key)),
   { s with log := s.log ++ [key] })

def Storage.setItem (s : Storage) (key val : String) : Except Unit Unit × Storage :=
  if s.fails then (.error (), { s with log := s.log ++ [key] })
  else (.ok (), { s with data := sset s.data key val, log := s.log ++ [key] })

def Storage.removeItem (s : Storage) (key : String) : Storage :=
  if s.fails then { s with log := s.log ++ [key] }
  else { s with data := serase s.data key, log := s.log ++ [key] }

def emptyStorage : Storage := { data := [], fails := false, log := [] }

/-! ## BaseComponent (src/core/BaseComponent.js)

`state` keeps the lifecycle booleans of the source's `this.state`
(lines 444-451); `error` records whether the `error` field was set by a
catch branch.  `config` keeps the two flags the lifecycle reads
(`autoMount`, `enableStateTracking`, lines 454-460).  `container` and
`element` model whether those DOM references are non-null.

User-overridable steps (lifecycle hooks, `checkDependencies`, `onInit`,
`onMount`, `onDestroy`) can throw; a `CompEnv` records whether each group
of steps completes normally.  `init`/`mount` call each other
(`mount` awaits `init` when uninitialized, line 583; `init` auto-mounts,
line 548), so both take a fuel argument; fuel 0 models the stack overflow
the mutual recursion produces when `setState` never records
`initialized := true`.
-/

structure CompState where
  initialized : Bool
  mounted : Bool
  destroyed : Bool
  error : Bool
deriving DecidableEq, Repr

structure CompConfig where
  autoMount : Bool
  enableStateTracking : Bool
deriving DecidableEq, Repr

structure Component where
  state : CompState
  config : CompConfig
  container : Bool
  element : Bool
deriving DecidableEq, Repr

structure CompEnv where
  initStepsOk : Bool
  afterInitOk : Bool
  mountStepsOk : Bool
  afterMountOk : Bool
  destroyStepsOk : Bool
deriving DecidableEq, Repr

def allStepsOk : CompEnv :=
  { initStepsOk := true, afterInitOk := true, mountStepsOk := true,
    afterMountOk := true, destroyStepsOk := true }

namespace BaseComponent

/-- `setState` (lines 805-829): merges the new fields into `this.state`,
but is a no-op when `config.enableStateTracking` is false (lines 806-808). -/
def setState (c : Component) (f : CompState → CompState) : Component :=
  if c.config.enableStateTracking then { c with state := f c.state } else c

/-- The catch branches of `init`/`mount`/`update` run
`this.setState({ error })` before re-throwing (lines 559, 640, 713). -/
def setError (c : Component) : Component :=
  setState c (fun s => { s with error := true })

mutual

/-- `init` (lines 512-564).  Early-returns when already initialized;
otherwise runs the before-init hooks, `checkDependencies` and `onInit`
(modelled by `env.initStepsOk`), marks `initialized` via `setState`
(line 538), runs the after-init hooks (`env.afterInitOk`), and auto-mounts
when `config.autoMount` and a container are present (lines 547-549).
Any throw is caught, `error` is recorded, and the error is RE-THROWN
(line 562), modelled by returning `.error` carrying the component. -/
def init (env : CompEnv) : Nat → Component → Except Component Component
  | 0, c => .error c
  | fuel + 1, c =>
    if c.state.initialized then .ok c
    else if ¬ env.initStepsOk then .error (setError c)
    else
      let c1 := setState c (fun s => { s with initialized := true })
      if ¬ env.afterInitOk then .error (setError c1)
      else if c1.config.autoMount ∧ c1.container then
        match mount env fuel c1 with
        | .ok c2 => .ok c2
        | .error c2 => .error (setError c2)
      else .ok c1

/-- `mount` (lines 576-645).  Early-returns when already mounted; when not
initialized it first awaits `init` (lines 582-584, OUTSIDE mount's own
try block, so an init failure propagates as-is); inside the try it throws
when no container is set (lines 596-598), runs the before-mount hooks,
`createElement` and `onMount` (`env.mountStepsOk`), marks `mounted` via
`setState` (line 624), and runs the after-mount hooks
(`env.afterMountOk`).  The catch records `error` and re-throws
(line 643). -/
def mount (env : CompEnv) : Nat → Component → Except Component Component
  | 0, c => .error c
  | fuel + 1, c =>
    if c.state.mounted then .ok c
    else
      match (if c.state.initialized then .ok c else init env fuel c) with
      | .error ce => .error ce
      | .ok c0 =>
        if ¬ c0.container then .error (setError c0)
        else if ¬ env.mountStepsOk then .error (setError c0)
        else
          let c1 := setState (setElement c0) (fun s => { s with mounted := true })
          if ¬ env.afterMountOk then .error (setError c1)
          else .ok c1

/-- `createElement` (lines 657-663) creates `this.element` when absent. -/
def setElement (c : Component) : Component := { c with element := true }

end

/-- `destroy` (lines 742-793).  No-op when already destroyed
(lines 743-746); otherwise runs the before-destroy hooks, destroys the
children, runs `onDestroy`, removes the element and the listeners
(all modelled by `env.destroyStepsOk`), and then marks
`destroyed := true, mounted := false, initialized := false` via `setState`
(lines 775-779).  The catch logs and emits but does NOT re-throw and does
NOT reach the state update, so a failing destroy returns the component
unchanged. -/
def destroy (env : CompEnv) (c : Component) : Component :=
  if c.state.destroyed then c
  else if ¬ env.destroyStepsOk then c
  else setState c (fun s => { s with destroyed := true, mounted := false, initialized := false })

end BaseComponent

/-! ## EventBus (src/core/EventBus.js)

The bus keeps, per event name, an array of listener records
(lines 418-425).  The claims are per-event, so the model is the listener
list of one event.  A `Listener` keeps the fields the dispatch logic
reads: the unique `id` (`generateListenerId`, line 688), the `priority`
and the `once` flag.  Callbacks are represented by their ids; the
environment `cbOk : Nat → Bool` says whether the callback with a given id
returns normally or throws when invoked.
-/

structure Listener where
  id : Nat
  priority : Int
  once : Bool
deriving DecidableEq, Repr

namespace EventBusClass

/-- Stable insertion of `l` into a list sorted by non-increasing priority:
`l` goes after every element of strictly higher or equal priority.
Together with `sortByPriority` this is the observable behaviour of
`listeners.sort((a, b) => b.priority - a.priority)` (line 430):
ECMAScript `Array.prototype.sort` is a stable sort, and that comparator
orders by descending priority. -/
def insertByPriority (l : Listener) : List Listener → List Listener
  | [] => [l]
  | x :: xs => if l.priority < x.priority then x :: insertByPriority l xs else l :: x :: xs

/-- Stable sort by non-increasing `priority` (line 430). -/
def sortByPriority : List Listener → List Listener
  | [] => []
  | x :: xs => insertByPriority x (sortByPriority xs)

/-- `on` (lines 401-437; `on` is a reserved token in Lean, hence `On`):
pushes the new listener (line 427) and re-sorts
the array by descending priority (line 430).  The max-listeners check
only logs a warning and is omitted. -/
def On (ls : List Listener) (l : Listener) : List Listener :=
  sortByPriority (ls ++ [l])

/-- Removal of the first occurrence of a listener record, as
`listeners.splice(listeners.indexOf(listener), 1)` does (lines 527-532). -/
def eraseListener (ls : List Listener) (l : Listener) : List Listener :=
  ls.erase l

/-- `off` by listener id (lines 457-462): `findIndex` + `splice`. -/
def off (ls : List Listener) (lid : Nat) : List Listener :=
  match ls.findIdx? (fun l => l.id = lid) with
  | none => ls
  | some i => ls.take i ++ ls.drop (i + 1)

/-- The `listenersToRemove` array built during `emit` (lines 504-524):
a listener is marked for removal only when its callback RETURNED
normally (a throw jumps to the catch before the `once` check on
line 514) and it is a `once` listener. -/
def emitRemovals (cbOk : Nat → Bool) (ls : List Listener) : List Listener :=
  ls.filter (fun l => l.once && cbOk l.id)

/-- `emit` (lines 487-535).  The for-loop calls every listener of the
array in order (first component: the invocation sequence); afterwards
each marked one-time listener is removed with `indexOf`/`splice`
(lines 527-532), modelled by folding `eraseListener` over the marked
listeners. -/
def emit (cbOk : Nat → Bool) (ls : List Listener) : List Listener × List Listener :=
  (ls, (emitRemovals cbOk ls).foldl eraseListener ls)

/-- `waitFor` (lines 785-797): registers a `once` listener and a
`setTimeout` of `timeout` ms (default 5000) whose handler removes the
listener and REJECTS with `Timeout waiting for event: <name>`.  The
outcome is determined by when (if ever) the event fires: `arrival` is the
time in ms of the first emit of the event, `args` its payload.  The
promise resolves with the payload when the event fires before the
timeout, and rejects with the timeout error otherwise; either way the
listener is gone afterwards (consumed as `once`, or removed by the
timeout handler). -/
def waitFor (eventName : String) (arrival : Option Nat) (args : List Nat)
    (timeout : Nat := 5000) : Except String (List Nat) :=
  match arrival with
  | some t => if t < timeout then .ok args
              else .error ("Timeout waiting for event: " ++ eventName)
  | none => .error ("Timeout waiting for event: " ++ eventName)

end EventBusClass

/-! ## ThemeManager (src/components/ThemeManager.js)

State fields `currentTheme` and `systemPreference` (lines 17-22), the
configuration `storageKey = "codenexlify-theme"` and
`themes = ["light", "dark", "auto"]` (lines 25-32), the document's
`data-theme` attribute (written on line 321), and the localStorage.
The model is an INITIALIZED manager with the default configuration:
`onInit` has registered `handleStateChange` on `state:changed`
(line 260), so every `setState({ currentTheme })` synchronously triggers
`saveTheme` (lines 292-297); `enableStateTracking` is the inherited
default `true`.  Transition bookkeeping (`isTransitioning`), toggle
button painting and the emitted events are DOM/announcement concerns and
are omitted.
-/

structure ThemeState where
  currentTheme : String
  systemPreference : String
deriving DecidableEq, Repr

structure ThemeWorld where
  state : ThemeState
  storage : Storage
  dataTheme : Option String
deriving DecidableEq, Repr

namespace ThemeManager

def storageKey : String := "codenexlify-theme"

def themes : List String := ["light", "dark", "auto"]

/-- `saveTheme` (lines 111-118): writes `currentTheme` under the storage
key; a storage exception is caught and only logged. -/
def saveTheme (w : ThemeWorld) : ThemeWorld :=
  match w.storage.setItem storageKey w.state.currentTheme with
  | (.ok _, st) => { w with storage := st }
  | (.error _, st) => { w with storage := st }

/-- `setState({ currentTheme })` on an initialized manager: the state
merge (BaseComponent lines 805-829) followed by the synchronous
`state:changed` dispatch into `handleStateChange` (lines 292-297), which
calls `saveTheme` because `changes.currentTheme` is set. -/
def setCurrentTheme (w : ThemeWorld) (t : String) : ThemeWorld :=
  saveTheme { w with state := { w.state with currentTheme := t } }

/-- `loadTheme` (lines 90-106): reads the storage key; a valid saved
theme becomes `currentTheme`, anything else (absent, invalid, or a
storage exception) falls back to `"auto"`.  The `setState` on the load
path also triggers `handleStateChange`/`saveTheme` post-init, which is
why the result threads the storage. -/
def loadTheme (w : ThemeWorld) : ThemeWorld :=
  match w.storage.getItem storageKey with
  | (.ok (some saved), st) =>
      if themes.contains saved then setCurrentTheme { w with storage := st } saved
      else setCurrentTheme { w with storage := st } "auto"
  | (.ok none, st) => setCurrentTheme { w with storage := st } "auto"
  | (.error _, st) => setCurrentTheme { w with storage := st } "auto"

/-- `getEffectiveTheme` (lines 302-307): resolves `"auto"` to the system
preference. -/
def getEffectiveTheme (w : ThemeWorld) : String :=
  if w.state.currentTheme = "auto" then w.state.systemPreference else w.state.currentTheme

/-- `applyTheme` (lines 312-349): resolves the effective theme
(line 313) and writes it to the document's `data-theme` attribute
(line 321).  Body classes, the meta theme-color, button repaint and the
`theme:changed` event are DOM concerns and are omitted. -/
def applyTheme (w : ThemeWorld) (theme : String) : ThemeWorld :=
  let effectiveTheme := if theme = "auto" then w.state.systemPreference else theme
  { w with dataTheme := some effectiveTheme }

/-- `setTheme` (lines 374-399): rejects a theme outside `config.themes`
with `false` (lines 375-378); returns `true` without doing anything when
the theme is already current (lines 382-385); otherwise updates the state
(which saves, via `handleStateChange`), applies the theme, and returns
`true`. -/
def setTheme (w : ThemeWorld) (theme : String) : Bool × ThemeWorld :=
  if ¬ themes.contains theme then (false, w)
  else if w.state.currentTheme = theme then (true, w)
  else (true, applyTheme (setCurrentTheme w theme) theme)

/-- `Array.prototype.indexOf`: index of the first occurrence, `-1` when
absent. -/
def jsIndexOf : List String → String → Int
  | [], _ => -1
  | y :: ys, x =>
      if y = x then 0
      else if jsIndexOf ys x = -1 then -1 else jsIndexOf ys x + 1

/-- `toggleTheme` (lines 404-410): advances `currentTheme` cyclically to
the next entry of `config.themes` and calls `setTheme` on it. -/
def toggleTheme (w : ThemeWorld) : ThemeWorld :=
  let currentIndex := jsIndexOf themes w.state.currentTheme
  let nextIndex := ((currentIndex + 1) % (themes.length : Int)).toNat
  let nextTheme := themes.getD nextIndex ""
  (setTheme w nextTheme).2

/-- `isStorageAvailable` (lines 612-621): writes the probe key
`"__theme_test__"`, removes it again, and reports `true`; a storage
exception yields `false`. -/
def isStorageAvailable (s : Storage) : Bool × Storage :=
  match s.setItem "__theme_test__" "__theme_test__" with
  | (.ok _, st) => (true, st.removeItem "__theme_test__")
  | (.error _, st) => (false, st)

end ThemeManager

/-! ## I18nManager (src/components/I18nManager.js)

State: `currentLanguage` (default `"tr"`), `availableLanguages`
(`["tr", "en"]`) and `loadedLanguages` (initially `["tr"]`, lines
477-482); the `translations` map (line 485, seeded with the built-in
Turkish table by `initializeDefaultTranslations`, line 610); the
configuration `storageKey = "codenexlify-language"`,
`translationsPath = "/locales"` and `persistChoice = true`
(lines 489-496); and the localStorage.  `fetch` is modelled by an
environment `FetchEnv` mapping a URL to `some table` (response ok and
JSON parsed) or `none` (network failure, non-ok status or bad JSON —
all of which land in the same catch, lines 796-812).
-/

def FetchEnv : Type := String → Option (List (String × String))

structure I18nState where
  currentLanguage : String
  loadedLanguages : List String
deriving DecidableEq, Repr

structure I18nWorld where
  state : I18nState
  translations : List (String × List (String × String))
  storage : Storage
deriving DecidableEq, Repr

namespace I18nManager

def storageKey : String := "codenexlify-language"

def availableLanguages : List String := ["tr", "en"]

/-- The built-in Turkish table of `initializeDefaultTranslations`
(lines 535-612). -/
def defaultTranslations : List (String × String) :=
  [("nav.home", "Ana Sayfa"),
   ("nav.about", "Hakkımızda"),
   ("nav.services", "Hizmetler"),
   ("nav.contact", "İletişim"),
   ("nav.blog", "Blog"),
   ("common.loading", "Yükleniyor..."),
   ("common.error", "Hata"),
   ("common.success", "Başarılı"),
   ("common.cancel", "İptal"),
   ("common.save", "Kaydet"),
   ("common.close", "Kapat"),
   ("common.back", "Geri"),
   ("common.next", "İleri"),
   ("common.previous", "Önceki"),
   ("common.submit", "Gönder"),
   ("common.search", "Ara"),
   ("common.filter", "Filtrele"),
   ("common.sort", "Sırala"),
   ("common.view_all", "Tümünü Gör"),
   ("common.read_more", "Devamını Oku"),
   ("hero.title", "Yenilikçi Teknoloji Çözümleri"),
   ("hero.subtitle", "AI odaklı hizmetlerle geliştiricilere ve işletmelere ilham veriyoruz. Türkçe destekli çözümlerle yerel pazardan globale uzanan vizyonumuzla yanınızdayız."),
   ("hero.cta_primary", "Hizmetlerimizi Keşfedin"),
   ("hero.cta_secondary", "İletişime Geçin"),
   ("services.title", "Hizmetlerimiz"),
   ("services.subtitle", "Modern teknolojilerle hayalinizdeki projeleri gerçeğe dönüştürüyoruz"),
   ("services.web.title", "Web Siteleri"),
   ("services.web.description", "SEO uyumlu, mobil dostu ve modern web çözümleri geliştiriyoruz."),
   ("services.mobile.title", "Mobil Uygulamalar"),
   ("services.mobile.description", "Çapraz platform mobil uygulamalar ile her cihazda mükemmel deneyim."),
   ("services.desktop.title", "Masaüstü Araçlar"),
   ("services.desktop.description", "Otomasyon ve IDE destekli yazılımlarla iş süreçlerinizi hızlandırın."),
   ("services.ai.title", "AI Eklentileri"),
   ("services.ai.description", "NexlifyBuddy gibi AI destekli kodlama araçları ile verimliliğinizi artırın."),
   ("services.consulting.title", "Danışmanlık"),
   ("services.consulting.description", "NGINX, API ve otomasyon konularında uzman rehberliği sağlıyoruz."),
   ("contact.title", "İletişim"),
   ("contact.subtitle", "Projeleriniz için ücretsiz konsültasyon alın"),
   ("contact.form.name", "Ad Soyad"),
   ("contact.form.email", "E-posta"),
   ("contact.form.phone", "Telefon"),
   ("contact.form.service", "Hizmet Türü"),
   ("contact.form.budget", "Bütçe Aralığı"),
   ("contact.form.message", "Mesajınız"),
   ("contact.form.submit", "Mesaj Gönder"),
   ("footer.company", "Şirket"),
   ("footer.services", "Hizmetler"),
   ("footer.contact", "İletişim"),
   ("footer.rights", "Tüm hakları saklıdır."),
   ("theme.toggle", "Tema değiştir"),
   ("theme.light", "Açık tema"),
   ("theme.dark", "Karanlık tema"),
   ("theme.auto", "Otomatik tema"),
   ("language.toggle", "Dil değiştir"),
   ("language.turkish", "Türkçe"),
   ("language.english", "English")]

/-- The built-in English table of `loadBuiltInEnglishTranslations`
(lines 827-899). -/
def englishTranslations : List (String × String) :=
  [("nav.home", "Home"),
   ("nav.about", "About"),
   ("nav.services", "Services"),
   ("nav.contact", "Contact"),
   ("nav.blog", "Blog"),
   ("common.loading", "Loading..."),
   ("common.error", "Error"),
   ("common.success", "Success"),
   ("common.cancel", "Cancel"),
   ("common.save", "Save"),
   ("common.close", "Close"),
   ("common.back", "Back"),
   ("common.next", "Next"),
   ("common.previous", "Previous"),
   ("common.submit", "Submit"),
   ("common.search", "Search"),
   ("common.filter", "Filter"),
   ("common.sort", "Sort"),
   ("common.view_all", "View All"),
   ("common.read_more", "Read More"),
   ("hero.title", "Innovative Technology Solutions"),
   ("hero.subtitle", "We inspire developers and businesses with AI-focused services. With Turkish-supported solutions, we are with you with our vision extending from the local market to the global."),
   ("hero.cta_primary", "Discover Our Services"),
   ("hero.cta_secondary", "Get In Touch"),
   ("services.title", "Our Services"),
   ("services.subtitle", "We turn your dream projects into reality with modern technologies"),
   ("services.web.title", "Web Sites"),
   ("services.web.description", "We develop SEO-friendly, mobile-friendly and modern web solutions."),
   ("services.mobile.title", "Mobile Applications"),
   ("services.mobile.description", "Perfect experience on every device with cross-platform mobile applications."),
   ("services.desktop.title", "Desktop Tools"),
   ("services.desktop.description", "Speed up your business processes with automation and IDE-supported software."),
   ("services.ai.title", "AI Plugins"),
   ("services.ai.description", "Increase your productivity with AI-supported coding tools like NexlifyBuddy."),
   ("services.consulting.title", "Consulting"),
   ("services.consulting.description", "We provide expert guidance on NGINX, API and automation."),
   ("contact.title", "Contact"),
   ("contact.subtitle", "Get free consultation for your projects"),
   ("contact.form.name", "Full Name"),
   ("contact.form.email", "Email"),
   ("contact.form.phone", "Phone"),
   ("contact.form.service", "Service Type"),
   ("contact.form.budget", "Budget Range"),
   ("contact.form.message", "Your Message"),
   ("contact.form.submit", "Send Message"),
   ("footer.company", "Company"),
   ("footer.services", "Services"),
   ("footer.contact", "Contact"),
   ("footer.rights", "All rights reserved."),
   ("theme.toggle", "Toggle theme"),
   ("theme.light", "Light theme"),
   ("theme.dark", "Dark theme"),
   ("theme.auto", "Auto theme"),
   ("language.toggle", "Change language"),
   ("language.turkish", "Türkçe"),
   ("language.english", "English")]

/-- Update of the `translations` map: `this.translations.set(lang, tbl)`
(lines 800 and 901). -/
def mapSet (m : List (String × List (String × String))) (key : String)
    (tbl : List (String × String)) : List (String × List (String × String)) :=
  match m with
  | [] => [(key, tbl)]
  | (k, v) :: rest => if k = key then (k, tbl) :: rest else (k, v) :: mapSet rest key tbl

/-- A fresh `I18nManager` right after the constructor (lines 470-503):
Turkish is the current language, the only loaded one, and its built-in
table is installed. -/
def freshWorld (storage : Storage) : I18nWorld :=
  { state := { currentLanguage := "tr", loadedLanguages := ["tr"] },
    translations := [("tr", defaultTranslations)],
    storage := storage }

/-- `loadBuiltInEnglishTranslations` (lines 826-903): installs the
literal English table under `"en"`. -/
def loadBuiltInEnglishTranslations (w : I18nWorld) : I18nWorld :=
  { w with translations := mapSet w.translations "en" englishTranslations }

/-- `loadTranslations` (lines 782-821).  Returns the number of `fetch`
calls performed alongside the new world.  Already-loaded languages are
skipped entirely (lines 783-786).  Otherwise ONE fetch of
`${translationsPath}/${language}.json` is attempted; a successful
response installs the fetched table (line 800); any failure is caught
(lines 805-812) and, only for `"en"`, the built-in English table is
installed instead.  Either way the language is then marked loaded
(line 814) — so no later call retries the fetch.  (`isLoading`
bookkeeping is dropped: it is set on entry and cleared in the `finally`.) -/
def loadTranslations (env : FetchEnv) (w : I18nWorld) (language : String) :
    Nat × I18nWorld :=
  if w.state.loadedLanguages.contains language then (0, w)
  else
    let translationsUrl := "/locales/" ++ language ++ ".json"
    let w1 :=
      match env translationsUrl with
      | some table => { w with translations := mapSet w.translations language table }
      | none => if language = "en" then loadBuiltInEnglishTranslations w else w
    (1, { w1 with state := { w1.state with
            loadedLanguages := w1.state.loadedLanguages ++ [language] } })

/-- `loadLanguagePreference` (lines 617-629): skipped when
`persistChoice` is off (the default config has it on); reads the storage
key; a saved value contained in `availableLanguages` becomes
`currentLanguage`; anything else, and a storage exception, leaves the
state alone. -/
def loadLanguagePreference (w : I18nWorld) : I18nWorld :=
  match w.storage.getItem storageKey with
  | (.ok (some savedLanguage), st) =>
      if availableLanguages.contains savedLanguage then
        { w with storage := st,
                 state := { w.state with currentLanguage := savedLanguage } }
      else { w with storage := st }
  | (.ok none, st) => { w with storage := st }
  | (.error _, st) => { w with storage := st }

/-- `saveLanguagePreference` (lines 634-643): writes `currentLanguage`
under the storage key; a storage exception is caught and only logged. -/
def saveLanguagePreference (w : I18nWorld) : I18nWorld :=
  match w.storage.setItem storageKey w.state.currentLanguage with
  | (.ok _, st) => { w with storage := st }
  | (.error _, st) => { w with storage := st }

end I18nManager

/-! ## App (src/core/App.js)

Only the storage-touching operations are embedded (the claims about App
concern its localStorage footprint).  `state.theme` / `state.language`
(lines 12-18) are carried; the config merge of `loadConfig` and the JSON
parsing of `loadUserPreferences` are abstracted behind the raw string /
a parser parameter, but the keys read and written are exact.
-/

structure AppWorld where
  theme : String
  language : String
  configRaw : Option String
  storage : Storage
deriving DecidableEq, Repr

namespace App

/-- `JSON.stringify({ theme, language })` for the preferences object
(lines 484-489). -/
def prefsJson (theme language : String) : String :=
  "\x7b\"theme\":\"" ++ theme ++ "\",\"language\":\"" ++ language ++ "\"\x7d"

/-- `loadConfig` (lines 59-72): reads `codenexlify-config`; a present
value is JSON-parsed and merged into the config (kept here as the raw
string); parse and storage errors are caught and only logged. -/
def loadConfig (w : AppWorld) : AppWorld :=
  match w.storage.getItem "codenexlify-config" with
  | (.ok (some savedConfig), st) => { w with storage := st, configRaw := some savedConfig }
  | (.ok none, st) => { w with storage := st }
  | (.error _, st) => { w with storage := st }

/-- `loadUserPreferences` (lines 129-140): reads
`codenexlify-preferences`; a present value is JSON-parsed (modelled by
the `parse` parameter) and its `theme` / `language` fields adopted with
the defaults `"light"` / `"tr"`; parse and storage errors are caught. -/
def loadUserPreferences (parse : String → Option (Option String × Option String))
    (w : AppWorld) : AppWorld :=
  match w.storage.getItem "codenexlify-preferences" with
  | (.ok (some preferences), st) =>
      match parse preferences with
      | some (t, l) => { w with storage := st,
                                theme := t.getD "light", language := l.getD "tr" }
      | none => { w with storage := st }
  | (.ok none, st) => { w with storage := st }
  | (.error _, st) => { w with storage := st }

/-- `saveUserPreferences` (lines 482-493): writes the JSON preferences
object under `codenexlify-preferences`; a storage exception is caught
and only logged. -/
def saveUserPreferences (w : AppWorld) : AppWorld :=
  match w.storage.setItem "codenexlify-preferences" (prefsJson w.theme w.language) with
  | (.ok _, st) => { w with storage := st }
  | (.error _, st) => { w with storage := st }

end App

/-! ## Legacy theme toggle (js/script.js, lines 500-516)

The standalone script keeps the theme under the PLAIN key `"theme"`:
on load it reads it (defaulting to `"light"`) into the `data-theme`
attribute, and each toggle click flips dark/light and writes the key.
These accesses have no try/catch.  They are embedded because they are
part of the repository's storage footprint.
-/

namespace LegacyScript

/-- Lines 500-502: `localStorage.getItem('theme') || 'light'` into the
`data-theme` attribute.  A throwing storage propagates (no catch);
the `Except` carries that. -/
def loadSavedTheme (s : Storage) : Except Unit (String × Storage) :=
  match s.getItem "theme" with
  | (.ok v, st) => .ok (v.getD "light", st)
  | (.error _, _st) => .error ()

/-- Lines 508-516: the click handler reads the current `data-theme`
attribute, flips dark/light, sets the attribute and writes the key. -/
def toggleClick (dataTheme : Option String) (s : Storage) :
    Except Unit (String × Storage) :=
  let newTheme := if dataTheme = some "dark" then "light" else "dark"
  match s.setItem "theme" newTheme with
  | (.ok _, st) => .ok (newTheme, st)
  | (.error _, _st) => .error ()

end LegacyScript

/-! ## NavigationManager (src/components/NavigationManager.js)

Only the pieces claim C7 cites: the scroll handler throttles itself with
`requestAnimationFrame` keeping the pending frame id in
`scrollThrottleId` (lines 205-226), and `onDestroy` (lines 556-578)
closes the mobile menu and CANCELS the pending frame with
`cancelAnimationFrame` (lines 563-565).
-/

structure NavWorld where
  mobileMenuOpen : Bool
  scrollThrottleId : Option Nat
deriving DecidableEq, Repr

namespace NavigationManager

/-- `onDestroy` (lines 556-578): closes the mobile menu when open and
cancels any pending scroll-throttle animation frame. -/
def onDestroy (_w : NavWorld) : NavWorld :=
  { mobileMenuOpen := false, scrollThrottleId := none }

end NavigationManager

/-! ## ComponentRegistry (src/core/ComponentRegistry.js)

`components` maps a name to its registration record; the construction
`new ComponentClass(options, ...args)` is modelled by a deterministic
outcome `make : Option Nat` in the record (`some i` = the constructor
yields instance `i`; `none` = it throws, which `getInstance` catches,
lines 96-99).  `instances` caches created instances by name.
-/

structure CompClass where
  make : Option Nat
deriving DecidableEq, Repr

structure Registry where
  components : List (String × CompClass)
  instances : List (String × Nat)
deriving DecidableEq, Repr

namespace ComponentRegistry

/-- Lookup in a `Map` keyed by names. -/
def mget {α : Type} : List (String × α) → String → Option α
  | [], _ => none
  | (k, v) :: rest, key => if k = key then some v else mget rest key

/-- `Map.set` for the instance cache (line 92). -/
def mset {α : Type} : List (String × α) → String → α → List (String × α)
  | [], key, val => [(key, val)]
  | (k, v) :: rest, key, val =>
      if k = key then (k, val) :: rest else (k, v) :: mset rest key val

/-- `getInstance` (lines 76-100): `null` when the name is not registered
(lines 77-80); the cached instance when one exists (lines 83-85);
otherwise the constructor runs — on success the instance is cached and
returned (lines 88-95), on a throw the catch returns `null`
(lines 96-99). -/
def getInstance (r : Registry) (name : String) : Option Nat × Registry :=
  match mget r.components name with
  | none => (none, r)
  | some cc =>
      match mget r.instances name with
      | some instance' => (some instance', r)
      | none =>
          match cc.make with
          | some instance' => (some instance', { r with instances := mset r.instances name instance' })
          | none => (none, r)

end ComponentRegistry

/-! ## Derived definitions and concrete instances used by the theorems -/

/-- Non-increasing priority between adjacent listeners: the order the
comparator `(a, b) => b.priority - a.priority` establishes. -/
def descPriority (a b : Listener) : Prop := b.priority ≤ a.priority

/-- Lookup in the `translations` map. -/
def I18nManager.mapGet (m : List (String × List (String × String))) (key : String) :
    Option (List (String × String)) :=
  match m with
  | [] => none
  | (k, v) :: rest => if k = key then some v else I18nManager.mapGet rest key

/-- The localStorage keys the repository's sources mention:
`codenexlify-theme` (ThemeManager), `codenexlify-language` (I18nManager),
`codenexlify-config` and `codenexlify-preferences` (App),
`__theme_test__` (ThemeManager.isStorageAvailable) and the legacy
`theme` (js/script.js). -/
def repoStorageKeys : List String :=
  ["codenexlify-theme", "codenexlify-language", "codenexlify-config",
   "codenexlify-preferences", "__theme_test__", "theme"]

/-- Coherence between a ThemeManager's state and the storage: the
relation `onInit` establishes (`loadTheme` then saves) and every
`setTheme` maintains — `currentTheme` is the valid stored theme, or
`"auto"` when nothing valid is stored. -/
def ThemeManager.storageCoherent (w : ThemeWorld) : Prop :=
  w.state.currentTheme =
    (match sget w.storage.data ThemeManager.storageKey with
     | some v => if ThemeManager.themes.contains v then v else "auto"
     | none => "auto")

/-- An initialized ThemeManager in dark mode on a dark-mode system,
its choice persisted, the document attribute in sync. -/
def darkOnDark : ThemeWorld :=
  { state := { currentTheme := "dark", systemPreference := "dark" },
    storage := { data := [("codenexlify-theme", "dark")], fails := false, log := [] },
    dataTheme := some "dark" }

/-- An initialized ThemeManager that never persisted anything: empty
storage, so `loadTheme` chose `"auto"`. -/
def freshAuto : ThemeWorld :=
  { state := { currentTheme := "auto", systemPreference := "light" },
    storage := emptyStorage,
    dataTheme := some "light" }

/-- A component constructed with `config: { enableStateTracking: false }`. -/
def untrackedComponent : Component :=
  { state := { initialized := false, mounted := false, destroyed := false, error := false },
    config := { autoMount := false, enableStateTracking := false },
    container := true, element := false }

/-- An initialized component whose `container` option was never set. -/
def containerlessComponent : Component :=
  { state := { initialized := true, mounted := false, destroyed := false, error := false },
    config := { autoMount := true, enableStateTracking := true },
    container := false, element := false }

/-- A one-time listener whose callback throws when invoked. -/
def throwingOnceListener : Listener := { id := 7, priority := 0, once := true }

/-- A callback environment in which every callback throws. -/
def allCallbacksThrow : Nat → Bool := fun _ => false

/-! ## Helper lemmas -/

theorem sget_sset_self (d : List (String × String)) (k v : String) :
    sget (sset d k v) k = some v := by
  induction d with
  | nil => simp [sset, sget]
  | cons hd tl ih =>
      obtain ⟨k', v'⟩ := hd
      by_cases h : k' = k
      · simp [sset, sget, h]
      · simp [sset, sget, h, ih]

theorem mget_mset_self {α : Type} (m : List (String × α)) (k : String) (v : α) :
    ComponentRegistry.mget (ComponentRegistry.mset m k v) k = some v := by
  induction m with
  | nil => simp [ComponentRegistry.mset, ComponentRegistry.mget]
  | cons hd tl ih =>
      obtain ⟨k', v'⟩ := hd
      by_cases h : k' = k
      · simp [ComponentRegistry.mset, ComponentRegistry.mget, h]
      · simp [ComponentRegistry.mset, ComponentRegistry.mget, h, ih]

theorem mem_of_mem_append_single {k key : String} {l : List String}
    (h : k ∈ l ++ [key]) : k ∈ l ∨ k = key := by
  rcases List.mem_append.mp h with h' | h'
  · exact Or.inl h'
  · exact Or.inr (List.mem_singleton.mp h')

/-! ## Claim C9 -/

/-- Claim C9: `ComponentRegistry.getInstance(name)` is memoizing — a
second call right after a first returns the same result from the same
registry state (in particular the cached instance when one was created),
and an unregistered name yields `null` and leaves the registry
untouched. -/
theorem C9_getInstance_memoizing :
    (∀ (r : Registry) (name : String),
        ComponentRegistry.getInstance (ComponentRegistry.getInstance r name).2 name =
          ComponentRegistry.getInstance r name) ∧
    (∀ (r : Registry) (name : String),
        ComponentRegistry.mget r.components name = none →
          ComponentRegistry.getInstance r name = (none, r)) := by
  constructor
  · intro r name
    unfold ComponentRegistry.getInstance
    cases hc : ComponentRegistry.mget r.components name with
    | none => simp [hc]
    | some cc =>
        cases hi : ComponentRegistry.mget r.instances name with
        | some inst => simp [hc, hi]
        | none =>
            cases hm : cc.make with
            | none => simp [hc, hi, hm]
            | some inst => simp [hc, hi, hm, mget_mset_self]
  · intro r name h
    unfold ComponentRegistry.getInstance
    simp [h]

/-- Witness for C9: a concrete registry with one registered component —
the first call constructs instance 4, the second returns it from the
cache; an unregistered name yields `none`. -/
theorem C9_getInstance_memoizing_witness :
    ComponentRegistry.getInstance
        (ComponentRegistry.getInstance
          { components := [("ThemeManager", { make := some 4 })], instances := [] }
          "ThemeManager").2 "ThemeManager" =
      ComponentRegistry.getInstance
        { components := [("ThemeManager", { make := some 4 })], instances := [] }
        "ThemeManager" ∧
    ComponentRegistry.getInstance
        { components := [("ThemeManager", { make := some 4 })], instances := [] }
        "Missing" =
      (none, { components := [("ThemeManager", { make := some 4 })], instances := [] }) :=
  ⟨C9_getInstance_memoizing.1 _ "ThemeManager",
   C9_getInstance_memoizing.2 _ "Missing" (by decide)⟩

/-! ## Claim C10 -/

/-- Claim C10: `setTheme` on a theme name outside `config.themes` is
atomic — it returns `false` and leaves `currentTheme`, the stored
localStorage data and the document's `data-theme` attribute unchanged. -/
theorem C10_setTheme_invalid_is_atomic (w : ThemeWorld) (theme : String)
    (h : theme ∉ ThemeManager.themes) :
    (ThemeManager.setTheme w theme).1 = false ∧
    (ThemeManager.setTheme w theme).2.state.currentTheme = w.state.currentTheme ∧
    (ThemeManager.setTheme w theme).2.storage.data = w.storage.data ∧
    (ThemeManager.setTheme w theme).2.dataTheme = w.dataTheme := by
  simp [ThemeManager.setTheme, h]

/-- Witness for C10: the invalid theme `"blue"` on the dark-mode world. -/
theorem C10_setTheme_invalid_is_atomic_witness :
    (ThemeManager.setTheme darkOnDark "blue").1 = false ∧
    (ThemeManager.setTheme darkOnDark "blue").2.state.currentTheme =
      darkOnDark.state.currentTheme ∧
    (ThemeManager.setTheme darkOnDark "blue").2.storage.data = darkOnDark.storage.data ∧
    (ThemeManager.setTheme darkOnDark "blue").2.dataTheme = darkOnDark.dataTheme :=
  C10_setTheme_invalid_is_atomic darkOnDark "blue" (by decide)

/-! ## Claim C7 -/

/-- Counterexample to C7 as stated: `EventBus.waitFor` is an event-bus
operation that DOES reject pending work by the passage of time — when
the awaited event never fires, the 5000 ms default timeout rejects the
promise with a timeout error. -/
theorem C7_counterexample_waitFor_rejects :
    EventBusClass.waitFor "app:ready" none [] 5000 =
      Except.error "Timeout waiting for event: app:ready" := rfl

/-- Claim C7 (amended): the repository has exactly two pieces of
cancellation/timeout logic.  `EventBus.waitFor` resolves with the
event's payload when the event fires strictly before the timeout and
rejects with `Timeout waiting for event: <name>` otherwise, and
`NavigationManager.onDestroy` cancels any pending scroll-throttle
animation frame; no other modelled operation rejects or cancels pending
work. -/
theorem C7_timeout_logic_characterized :
    (∀ (e : String) (t : Nat) (args : List Nat) (timeout : Nat),
        t < timeout →
          EventBusClass.waitFor e (some t) args timeout = Except.ok args) ∧
    (∀ (e : String) (arrival : Option Nat) (args : List Nat) (timeout : Nat),
        (∀ t, arrival = some t → timeout ≤ t) →
          EventBusClass.waitFor e arrival args timeout =
            Except.error ("Timeout waiting for event: " ++ e)) ∧
    (∀ w : NavWorld, (NavigationManager.onDestroy w).scrollThrottleId = none) := by
  refine ⟨?_, ?_, ?_⟩
  · intro e t args timeout h
    simp [EventBusClass.waitFor, h]
  · intro e arrival args timeout h
    cases arrival with
    | none => simp [EventBusClass.waitFor]
    | some t =>
        have ht := h t rfl
        simp [EventBusClass.waitFor, Nat.not_lt.mpr ht]
  · intro w
    rfl

/-- Witness for C7 (amended): an event arriving at 100 ms resolves a
5000 ms wait; one that never arrives rejects; destroying the navigation
manager clears the pending frame id. -/
theorem C7_timeout_logic_characterized_witness :
    EventBusClass.waitFor "pwa:installed" (some 100) [3] 5000 = Except.ok [3] ∧
    EventBusClass.waitFor "pwa:installed" none [3] 5000 =
      Except.error "Timeout waiting for event: pwa:installed" ∧
    (NavigationManager.onDestroy
        { mobileMenuOpen := true, scrollThrottleId := some 12 }).scrollThrottleId = none :=
  ⟨C7_timeout_logic_characterized.1 "pwa:installed" 100 [3] 5000 (by decide),
   C7_timeout_logic_characterized.2.1 "pwa:installed" none [3] 5000 (by simp),
   C7_timeout_logic_characterized.2.2 _⟩

/-! ## Claim C4 -/

theorem log_append_footprint {old ks : List String} {k : String}
    (hks : ∀ x ∈ ks, x ∈ repoStorageKeys) (hk : k ∈ old ++ ks) :
    k ∈ old ∨ k ∈ repoStorageKeys := by
  rcases List.mem_append.mp hk with h | h
  · exact Or.inl h
  · exact Or.inr (hks k h)

theorem loadTheme_log (w : ThemeWorld) :
    (ThemeManager.loadTheme w).storage.log =
      w.storage.log ++ ["codenexlify-theme", "codenexlify-theme"] := by
  unfold ThemeManager.loadTheme ThemeManager.setCurrentTheme ThemeManager.saveTheme
    Storage.getItem Storage.setItem
  by_cases hf : w.storage.fails = true <;>
    simp [hf, ThemeManager.storageKey] <;>
    rcases sget w.storage.data "codenexlify-theme" with _ | v <;>
    simp <;>
    split <;>
    simp

theorem saveTheme_log (w : ThemeWorld) :
    (ThemeManager.saveTheme w).storage.log = w.storage.log ++ ["codenexlify-theme"] := by
  unfold ThemeManager.saveTheme Storage.setItem
  by_cases hf : w.storage.fails = true <;> simp [hf, ThemeManager.storageKey]

theorem isStorageAvailable_log (s : Storage) :
    (ThemeManager.isStorageAvailable s).2.log = s.log ++ ["__theme_test__"] ∨
    (ThemeManager.isStorageAvailable s).2.log =
      s.log ++ ["__theme_test__", "__theme_test__"] := by
  unfold ThemeManager.isStorageAvailable Storage.setItem Storage.removeItem
  by_cases hf : s.fails = true <;> simp [hf]

theorem loadLanguagePreference_log (w : I18nWorld) :
    (I18nManager.loadLanguagePreference w).storage.log =
      w.storage.log ++ ["codenexlify-language"] := by
  unfold I18nManager.loadLanguagePreference Storage.getItem
  by_cases hf : w.storage.fails = true <;>
    simp [hf, I18nManager.storageKey] <;>
    rcases sget w.storage.data "codenexlify-language" with _ | v <;>
    simp <;>
    split <;>
    simp

theorem saveLanguagePreference_log (w : I18nWorld) :
    (I18nManager.saveLanguagePreference w).storage.log =
      w.storage.log ++ ["codenexlify-language"] := by
  unfold I18nManager.saveLanguagePreference Storage.setItem
  by_cases hf : w.storage.fails = true <;> simp [hf, I18nManager.storageKey]

theorem loadConfig_log (w : AppWorld) :
    (App.loadConfig w).storage.log = w.storage.log ++ ["codenexlify-config"] := by
  unfold App.loadConfig Storage.getItem
  by_cases hf : w.storage.fails = true <;>
    simp [hf] <;>
    rcases sget w.storage.data "codenexlify-config" with _ | v <;>
    simp

theorem loadUserPreferences_log
    (parse : String → Option (Option String × Option String)) (w : AppWorld) :
    (App.loadUserPreferences parse w).storage.log =
      w.storage.log ++ ["codenexlify-preferences"] := by
  unfold App.loadUserPreferences Storage.getItem
  by_cases hf : w.storage.fails = true <;>
    simp [hf] <;>
    rcases sget w.storage.data "codenexlify-preferences" with _ | v <;>
    simp <;>
    rcases parse v with _ | ⟨t, l⟩ <;>
    simp

theorem saveUserPreferences_log (w : AppWorld) :
    (App.saveUserPreferences w).storage.log =
      w.storage.log ++ ["codenexlify-preferences"] := by
  unfold App.saveUserPreferences Storage.setItem
  by_cases hf : w.storage.fails = true <;> simp [hf]

theorem loadSavedTheme_log (s st : Storage) (v : String)
    (h : LegacyScript.loadSavedTheme s = .ok (v, st)) :
    st.log = s.log ++ ["theme"] := by
  unfold LegacyScript.loadSavedTheme Storage.getItem at h
  by_cases hf : s.fails = true <;> simp [hf] at h
  rw [← h.2]

theorem toggleClick_log (dt : Option String) (s st : Storage) (v : String)
    (h : LegacyScript.toggleClick dt s = .ok (v, st)) :
    st.log = s.log ++ ["theme"] := by
  unfold LegacyScript.toggleClick Storage.setItem at h
  by_cases hf : s.fails = true <;> simp [hf] at h
  rw [← h.2]

/-- Counterexample to C4 as stated: `App.saveUserPreferences` writes the
localStorage key `codenexlify-preferences`, which is neither the theme
key nor the language key — the program touches more than the two keys
the claim allows. -/
theorem C4_counterexample_third_key :
    (App.saveUserPreferences
        { theme := "light", language := "tr", configRaw := none,
          storage := emptyStorage }).storage.log = ["codenexlify-preferences"] ∧
    sget (App.saveUserPreferences
        { theme := "light", language := "tr", configRaw := none,
          storage := emptyStorage }).storage.data "codenexlify-preferences" =
      some "\x7b\"theme\":\"light\",\"language\":\"tr\"\x7d" ∧
    "codenexlify-preferences" ≠ "codenexlify-theme" ∧
    "codenexlify-preferences" ≠ "codenexlify-language" := by
  refine ⟨rfl, rfl, by decide, by decide⟩

/-- Claim C4 (amended): the program reads and writes six localStorage
keys, not two — `codenexlify-theme`, `codenexlify-language`,
`codenexlify-config`, `codenexlify-preferences`, the probe key
`__theme_test__` and the legacy `theme` of js/script.js.  Every modelled
storage-touching operation only touches keys of that list: whatever key
appears in the access log after the operation was either there before or
is one of the six. -/
theorem C4_storage_footprint :
    (∀ (w : ThemeWorld) (k : String), k ∈ (ThemeManager.loadTheme w).storage.log →
        k ∈ w.storage.log ∨ k ∈ repoStorageKeys) ∧
    (∀ (w : ThemeWorld) (k : String), k ∈ (ThemeManager.saveTheme w).storage.log →
        k ∈ w.storage.log ∨ k ∈ repoStorageKeys) ∧
    (∀ (s : Storage) (k : String), k ∈ (ThemeManager.isStorageAvailable s).2.log →
        k ∈ s.log ∨ k ∈ repoStorageKeys) ∧
    (∀ (w : I18nWorld) (k : String), k ∈ (I18nManager.loadLanguagePreference w).storage.log →
        k ∈ w.storage.log ∨ k ∈ repoStorageKeys) ∧
    (∀ (w : I18nWorld) (k : String), k ∈ (I18nManager.saveLanguagePreference w).storage.log →
        k ∈ w.storage.log ∨ k ∈ repoStorageKeys) ∧
    (∀ (w : AppWorld) (k : String), k ∈ (App.loadConfig w).storage.log →
        k ∈ w.storage.log ∨ k ∈ repoStorageKeys) ∧
    (∀ (parse : String → Option (Option String × Option String)) (w : AppWorld) (k : String),
        k ∈ (App.loadUserPreferences parse w).storage.log →
          k ∈ w.storage.log ∨ k ∈ repoStorageKeys) ∧
    (∀ (w : AppWorld) (k : String), k ∈ (App.saveUserPreferences w).storage.log →
        k ∈ w.storage.log ∨ k ∈ repoStorageKeys) ∧
    (∀ (s st : Storage) (v k : String), LegacyScript.loadSavedTheme s = .ok (v, st) →
        k ∈ st.log → k ∈ s.log ∨ k ∈ repoStorageKeys) ∧
    (∀ (dt : Option String) (s st : Storage) (v k : String),
        LegacyScript.toggleClick dt s = .ok (v, st) →
          k ∈ st.log → k ∈ s.log ∨ k ∈ repoStorageKeys) := by
  refine ⟨?_, ?_, ?_, ?_, ?_, ?_, ?_, ?_, ?_, ?_⟩
  · intro w k hk
    rw [loadTheme_log] at hk
    exact log_append_footprint (by decide) hk
  · intro w k hk
    rw [saveTheme_log] at hk
    exact log_append_footprint (by decide) hk
  · intro s k hk
    rcases isStorageAvailable_log s with h | h <;> rw [h] at hk <;>
      exact log_append_footprint (by decide) hk
  · intro w k hk
    rw [loadLanguagePreference_log] at hk
    exact log_append_footprint (by decide) hk
  · intro w k hk
    rw [saveLanguagePreference_log] at hk
    exact log_append_footprint (by decide) hk
  · intro w k hk
    rw [loadConfig_log] at hk
    exact log_append_footprint (by decide) hk
  · intro parse w k hk
    rw [loadUserPreferences_log] at hk
    exact log_append_footprint (by decide) hk
  · intro w k hk
    rw [saveUserPreferences_log] at hk
    exact log_append_footprint (by decide) hk
  · intro s st v k hok hk
    rw [loadSavedTheme_log s st v hok] at hk
    exact log_append_footprint (by decide) hk
  · intro dt s st v k hok hk
    rw [toggleClick_log dt s st v hok] at hk
    exact log_append_footprint (by decide) hk

/-- Witness for C4 (amended): concrete runs — loading the theme on the
dark-mode world logs only the theme key, the probe check logs only the
probe key, saving the app preferences logs only the preferences key. -/
theorem C4_storage_footprint_witness :
    ("codenexlify-theme" ∈ darkOnDark.storage.log ∨
       "codenexlify-theme" ∈ repoStorageKeys) ∧
    ("__theme_test__" ∈ (emptyStorage : Storage).log ∨
       "__theme_test__" ∈ repoStorageKeys) ∧
    ("codenexlify-preferences" ∈ (emptyStorage : Storage).log ∨
       "codenexlify-preferences" ∈ repoStorageKeys) :=
  ⟨C4_storage_footprint.1 darkOnDark "codenexlify-theme" (by decide),
   C4_storage_footprint.2.2.1 emptyStorage "__theme_test__" (by decide),
   C4_storage_footprint.2.2.2.2.2.2.2.1
     { theme := "light", language := "tr", configRaw := none, storage := emptyStorage }
     "codenexlify-preferences" (by decide)⟩

/-! ## ThemeManager evaluation lemmas shared by C1, C3 and C6 -/

theorem setCurrentTheme_state (w : ThemeWorld) (t : String) :
    (ThemeManager.setCurrentTheme w t).state =
      { currentTheme := t, systemPreference := w.state.systemPreference } := by
  unfold ThemeManager.setCurrentTheme ThemeManager.saveTheme Storage.setItem
  by_cases hf : w.storage.fails = true <;> simp [hf]

theorem setCurrentTheme_dataTheme (w : ThemeWorld) (t : String) :
    (ThemeManager.setCurrentTheme w t).dataTheme = w.dataTheme := by
  unfold ThemeManager.setCurrentTheme ThemeManager.saveTheme Storage.setItem
  by_cases hf : w.storage.fails = true <;> simp [hf]

theorem setCurrentTheme_storage_ok (w : ThemeWorld) (t : String)
    (hok : w.storage.fails = false) :
    (ThemeManager.setCurrentTheme w t).storage.data =
        sset w.storage.data ThemeManager.storageKey t ∧
    (ThemeManager.setCurrentTheme w t).storage.fails = false := by
  unfold ThemeManager.setCurrentTheme ThemeManager.saveTheme Storage.setItem
  simp [hok]

theorem setCurrentTheme_storage_failing (w : ThemeWorld) (t : String)
    (hf : w.storage.fails = true) :
    (ThemeManager.setCurrentTheme w t).storage.data = w.storage.data := by
  unfold ThemeManager.setCurrentTheme ThemeManager.saveTheme Storage.setItem
  simp [hf]

theorem applyTheme_state (w : ThemeWorld) (theme : String) :
    (ThemeManager.applyTheme w theme).state = w.state := rfl

theorem applyTheme_storage (w : ThemeWorld) (theme : String) :
    (ThemeManager.applyTheme w theme).storage = w.storage := rfl

theorem applyTheme_dataTheme (w : ThemeWorld) (theme : String) :
    (ThemeManager.applyTheme w theme).dataTheme =
      some (if theme = "auto" then w.state.systemPreference else theme) := rfl

theorem setTheme_of_ne (w : ThemeWorld) (t : String)
    (ht : t ∈ ThemeManager.themes) (hne : ¬ w.state.currentTheme = t) :
    ThemeManager.setTheme w t =
      (true, ThemeManager.applyTheme (ThemeManager.setCurrentTheme w t) t) := by
  simp [ThemeManager.setTheme, ht, hne]

theorem setTheme_of_eq (w : ThemeWorld) (t : String)
    (ht : t ∈ ThemeManager.themes) (heq : w.state.currentTheme = t) :
    ThemeManager.setTheme w t = (true, w) := by
  simp [ThemeManager.setTheme, ht, heq]

theorem loadTheme_failing (w : ThemeWorld) (hf : w.storage.fails = true) :
    (ThemeManager.loadTheme w).state.currentTheme = "auto" := by
  unfold ThemeManager.loadTheme Storage.getItem
  simp only [hf]
  simp [setCurrentTheme_state]

theorem loadTheme_of_valid (w : ThemeWorld) (v : String)
    (hok : w.storage.fails = false)
    (hs : sget w.storage.data ThemeManager.storageKey = some v)
    (hv : v ∈ ThemeManager.themes) :
    (ThemeManager.loadTheme w).state.currentTheme = v := by
  unfold ThemeManager.loadTheme Storage.getItem
  simp only [hok]
  simp [hs, hv, setCurrentTheme_state]

theorem loadTheme_of_invalid (w : ThemeWorld) (v : String)
    (hok : w.storage.fails = false)
    (hs : sget w.storage.data ThemeManager.storageKey = some v)
    (hv : v ∉ ThemeManager.themes) :
    (ThemeManager.loadTheme w).state.currentTheme = "auto" := by
  unfold ThemeManager.loadTheme Storage.getItem
  simp only [hok]
  simp [hs, hv, setCurrentTheme_state]

theorem loadTheme_of_none (w : ThemeWorld)
    (hok : w.storage.fails = false)
    (hs : sget w.storage.data ThemeManager.storageKey = none) :
    (ThemeManager.loadTheme w).state.currentTheme = "auto" := by
  unfold ThemeManager.loadTheme Storage.getItem
  simp only [hok]
  simp [hs, setCurrentTheme_state]

/-! ## Claim C3 -/

/-- Counterexample to C3 as stated: on a fresh initialized ThemeManager
(`currentTheme = "auto"`, nothing stored) `setTheme("auto")` returns
`true` but writes NOTHING to localStorage — the key `codenexlify-theme`
is still absent afterwards, although `"auto"` is in the configured theme
list.  The claim's "setTheme(t) writes t to localStorage" fails. -/
theorem C3_counterexample_no_write :
    "auto" ∈ ThemeManager.themes ∧
    (ThemeManager.setTheme freshAuto "auto").1 = true ∧
    sget (ThemeManager.setTheme freshAuto "auto").2.storage.data
        ThemeManager.storageKey = none := by
  decide

/-- Claim C3 (amended): for every theme `t` of the configured list, on a
working storage and a state/storage-coherent (i.e. reachable
initialized) ThemeManager, `setTheme(t)` writes `t` under
`codenexlify-theme` whenever `t` differs from the current theme (when it
is equal, `setTheme` returns early and writes nothing), and a subsequent
`loadTheme()` always sets `currentTheme` back to `t`. -/
theorem C3_theme_roundtrip (w : ThemeWorld) (t : String)
    (hok : w.storage.fails = false)
    (ht : t ∈ ThemeManager.themes)
    (hcoh : ThemeManager.storageCoherent w) :
    (¬ w.state.currentTheme = t →
        sget (ThemeManager.setTheme w t).2.storage.data
          ThemeManager.storageKey = some t) ∧
    (ThemeManager.loadTheme (ThemeManager.setTheme w t).2).state.currentTheme = t := by
  by_cases heq : w.state.currentTheme = t
  · refine ⟨fun hne => absurd heq hne, ?_⟩
    rw [setTheme_of_eq w t ht heq]
    unfold ThemeManager.storageCoherent at hcoh
    rcases hs : sget w.storage.data ThemeManager.storageKey with _ | v
    · simp only [hs] at hcoh
      rw [loadTheme_of_none w hok hs]
      exact hcoh.symm.trans heq
    · simp only [hs] at hcoh
      by_cases hv : v ∈ ThemeManager.themes
      · simp [hv] at hcoh
        rw [loadTheme_of_valid w v hok hs hv]
        exact hcoh.symm.trans heq
      · simp [hv] at hcoh
        rw [loadTheme_of_invalid w v hok hs hv]
        exact hcoh.symm.trans heq
  · have hw := setTheme_of_ne w t ht heq
    have hdata : (ThemeManager.setTheme w t).2.storage.data =
        sset w.storage.data ThemeManager.storageKey t := by
      rw [hw]
      rw [applyTheme_storage]
      exact (setCurrentTheme_storage_ok w t hok).1
    have hfails : (ThemeManager.setTheme w t).2.storage.fails = false := by
      rw [hw, applyTheme_storage]
      exact (setCurrentTheme_storage_ok w t hok).2
    have hsget : sget (ThemeManager.setTheme w t).2.storage.data
        ThemeManager.storageKey = some t := by
      rw [hdata]; exact sget_sset_self _ _ _
    exact ⟨fun _ => hsget, loadTheme_of_valid _ t hfails hsget ht⟩

/-- Witness for C3 (amended): the persisted dark-mode world, switching
to `"light"` — the key is written and the round-trip restores it. -/
theorem C3_theme_roundtrip_witness :
    (¬ darkOnDark.state.currentTheme = "light" →
        sget (ThemeManager.setTheme darkOnDark "light").2.storage.data
          ThemeManager.storageKey = some "light") ∧
    (ThemeManager.loadTheme
        (ThemeManager.setTheme darkOnDark "light").2).state.currentTheme = "light" :=
  C3_theme_roundtrip darkOnDark "light" (by decide) (by decide)
    (by unfold ThemeManager.storageCoherent; decide)

/-! ## Claim C6 -/

theorem toggle_next (cur : String) :
    ThemeManager.themes.getD
        ((ThemeManager.jsIndexOf ThemeManager.themes cur + 1) %
          (ThemeManager.themes.length : Int)).toNat "" =
      (if cur = "light" then "dark" else if cur = "dark" then "auto" else "light") := by
  by_cases h1 : cur = "light"
  · subst h1; decide
  · by_cases h2 : cur = "dark"
    · subst h2; simp [h1]; decide
    · by_cases h3 : cur = "auto"
      · subst h3; simp [h1, h2]; decide
      · have e1 : ¬ ("light" = cur) := fun h => h1 h.symm
        have e2 : ¬ ("dark" = cur) := fun h => h2 h.symm
        have e3 : ¬ ("auto" = cur) := fun h => h3 h.symm
        have hidx : ThemeManager.jsIndexOf ThemeManager.themes cur = -1 := by
          simp [ThemeManager.jsIndexOf, ThemeManager.themes, e1, e2, e3]
        rw [hidx]
        simp [h1, h2]
        decide

theorem toggleTheme_eq (w : ThemeWorld) :
    ThemeManager.toggleTheme w =
      (ThemeManager.setTheme w
        (if w.state.currentTheme = "light" then "dark"
         else if w.state.currentTheme = "dark" then "auto" else "light")).2 := by
  simp only [ThemeManager.toggleTheme]
  rw [toggle_next]

/-- Counterexample to C6 as stated: on a ThemeManager in `"dark"` mode
with a dark system preference, `toggleTheme()` advances the setting to
`"auto"`, whose effective theme is again `"dark"` — the document's
`data-theme` attribute does NOT change. -/
theorem C6_counterexample_attribute_unchanged :
    (ThemeManager.toggleTheme darkOnDark).dataTheme = darkOnDark.dataTheme ∧
    darkOnDark.dataTheme = some "dark" ∧
    (ThemeManager.toggleTheme darkOnDark).state.currentTheme = "auto" := by
  decide

/-- Claim C6 (amended): `toggleTheme()` advances `currentTheme`
cyclically (`light → dark → auto → light`) and writes the NEW effective
theme to the document's `data-theme` attribute; the attribute changes
exactly when the new effective theme differs from the old one — i.e. in
every case except toggling `dark → auto` under a dark system preference
and `auto → light` under a light one. -/
theorem C6_toggle_applies_next_effective (w : ThemeWorld)
    (hmem : w.state.currentTheme ∈ ThemeManager.themes)
    (hdoc : w.dataTheme = some (ThemeManager.getEffectiveTheme w)) :
    ((ThemeManager.toggleTheme w).state.currentTheme =
        (if w.state.currentTheme = "light" then "dark"
         else if w.state.currentTheme = "dark" then "auto" else "light")) ∧
    ((ThemeManager.toggleTheme w).dataTheme =
        some (if (ThemeManager.toggleTheme w).state.currentTheme = "auto"
              then w.state.systemPreference
              else (ThemeManager.toggleTheme w).state.currentTheme)) ∧
    (¬ (ThemeManager.toggleTheme w).dataTheme = w.dataTheme ↔
        ¬ ((w.state.currentTheme = "dark" ∧ w.state.systemPreference = "dark") ∨
           (w.state.currentTheme = "auto" ∧ w.state.systemPreference = "light"))) := by
  simp only [ThemeManager.themes, List.mem_cons, List.mem_singleton,
    List.not_mem_nil, or_false] at hmem
  rcases hmem with h | h | h
  · have hne : ¬ w.state.currentTheme = "dark" := by simp [h]
    have htog : ThemeManager.toggleTheme w = (ThemeManager.setTheme w "dark").2 := by
      rw [toggleTheme_eq, h]; simp
    have hset := setTheme_of_ne w "dark" (by decide) hne
    simp [ThemeManager.getEffectiveTheme, h] at hdoc
    refine ⟨?_, ?_, ?_⟩ <;>
      simp [htog, hset, ThemeManager.applyTheme, setCurrentTheme_state, h, hdoc, eq_comm]
  · have hne : ¬ w.state.currentTheme = "auto" := by simp [h]
    have htog : ThemeManager.toggleTheme w = (ThemeManager.setTheme w "auto").2 := by
      rw [toggleTheme_eq, h]; simp
    have hset := setTheme_of_ne w "auto" (by decide) hne
    simp [ThemeManager.getEffectiveTheme, h] at hdoc
    refine ⟨?_, ?_, ?_⟩ <;>
      simp [htog, hset, ThemeManager.applyTheme, setCurrentTheme_state, h, hdoc, eq_comm]
  · have hne : ¬ w.state.currentTheme = "light" := by simp [h]
    have htog : ThemeManager.toggleTheme w = (ThemeManager.setTheme w "light").2 := by
      rw [toggleTheme_eq, h]; simp
    have hset := setTheme_of_ne w "light" (by decide) hne
    simp [ThemeManager.getEffectiveTheme, h] at hdoc
    refine ⟨?_, ?_, ?_⟩ <;>
      simp [htog, hset, ThemeManager.applyTheme, setCurrentTheme_state, h, hdoc, eq_comm]

/-- Witness for C6 (amended): the fresh `"auto"` manager with a light
system preference — toggling goes to `"light"` and the attribute stays
`"light"` (new effective equals old effective). -/
theorem C6_toggle_applies_next_effective_witness :
    ((ThemeManager.toggleTheme freshAuto).state.currentTheme =
        (if freshAuto.state.currentTheme = "light" then "dark"
         else if freshAuto.state.currentTheme = "dark" then "auto" else "light")) ∧
    ((ThemeManager.toggleTheme freshAuto).dataTheme =
        some (if (ThemeManager.toggleTheme freshAuto).state.currentTheme = "auto"
              then freshAuto.state.systemPreference
              else (ThemeManager.toggleTheme freshAuto).state.currentTheme)) ∧
    (¬ (ThemeManager.toggleTheme freshAuto).dataTheme = freshAuto.dataTheme ↔
        ¬ ((freshAuto.state.currentTheme = "dark" ∧
              freshAuto.state.systemPreference = "dark") ∨
           (freshAuto.state.currentTheme = "auto" ∧
              freshAuto.state.systemPreference = "light"))) :=
  C6_toggle_applies_next_effective freshAuto (by decide) (by decide)

/-! ## Claim C5 -/

theorem mapGet_mapSet_self (m : List (String × List (String × String)))
    (k : String) (tbl : List (String × String)) :
    I18nManager.mapGet (I18nManager.mapSet m k tbl) k = some tbl := by
  induction m with
  | nil => simp [I18nManager.mapSet, I18nManager.mapGet]
  | cons hd tl ih =>
      obtain ⟨k', v'⟩ := hd
      by_cases h : k' = k
      · simp [I18nManager.mapSet, I18nManager.mapGet, h]
      · simp [I18nManager.mapSet, I18nManager.mapGet, h, ih]

/-- Counterexample to C5 as stated: `loadTranslations("tr")` on a fresh
I18nManager performs NO fetch at all — Turkish is in `loadedLanguages`
from construction, so the call returns at the early guard.  The claim's
"for every language code, loadTranslations fetches the locale JSON file"
fails. -/
theorem C5_counterexample_no_fetch_for_loaded :
    (I18nManager.loadTranslations (fun _ => none)
        (I18nManager.freshWorld emptyStorage) "tr").1 = 0 := rfl

/-- Claim C5 (amended): for every language code NOT already marked
loaded, `loadTranslations` performs exactly one fetch of
`/locales/<code>.json`; on a fetch failure it falls back to the built-in
literal tables with no retry — for `"en"` the built-in English table is
installed, for any other code the `translations` map is left as it is
(the built-in Turkish table is present from construction); the language
is marked loaded either way, so the same call made again performs zero
fetches.  For a language already marked loaded no fetch happens at
all. -/
theorem C5_fetch_fallback_no_retry (env : FetchEnv) (w : I18nWorld) (language : String)
    (h : language ∉ w.state.loadedLanguages) :
    (I18nManager.loadTranslations env w language).1 = 1 ∧
    (env ("/locales/" ++ language ++ ".json") = none → language = "en" →
        I18nManager.mapGet
            (I18nManager.loadTranslations env w language).2.translations "en" =
          some I18nManager.englishTranslations) ∧
    (env ("/locales/" ++ language ++ ".json") = none → ¬ language = "en" →
        (I18nManager.loadTranslations env w language).2.translations = w.translations) ∧
    language ∈ (I18nManager.loadTranslations env w language).2.state.loadedLanguages ∧
    (I18nManager.loadTranslations env
        (I18nManager.loadTranslations env w language).2 language).1 = 0 := by
  rcases henv : env ("/locales/" ++ language ++ ".json") with _ | table
  · by_cases hen : language = "en"
    · subst hen
      have henv' : env "/locales/en.json" = none := henv
      refine ⟨?_, ?_, ?_, ?_, ?_⟩ <;>
        simp [I18nManager.loadTranslations, I18nManager.loadBuiltInEnglishTranslations,
          h, henv', mapGet_mapSet_self]
    · refine ⟨?_, ?_, ?_, ?_, ?_⟩ <;>
        simp [I18nManager.loadTranslations, h, henv, hen]
  · refine ⟨?_, ?_, ?_, ?_, ?_⟩ <;>
      simp [I18nManager.loadTranslations, h, henv]

/-- Witness for C5 (amended): loading `"en"` on the fresh manager when
every fetch fails — one fetch, the built-in English table installed, no
second fetch. -/
theorem C5_fetch_fallback_no_retry_witness :
    (I18nManager.loadTranslations (fun _ => none)
        (I18nManager.freshWorld emptyStorage) "en").1 = 1 ∧
    ((fun _ => none : FetchEnv) ("/locales/" ++ "en" ++ ".json") = none → "en" = "en" →
        I18nManager.mapGet
            (I18nManager.loadTranslations (fun _ => none)
              (I18nManager.freshWorld emptyStorage) "en").2.translations "en" =
          some I18nManager.englishTranslations) ∧
    ((fun _ => none : FetchEnv) ("/locales/" ++ "en" ++ ".json") = none → ¬ "en" = "en" →
        (I18nManager.loadTranslations (fun _ => none)
            (I18nManager.freshWorld emptyStorage) "en").2.translations =
          (I18nManager.freshWorld emptyStorage).translations) ∧
    "en" ∈ (I18nManager.loadTranslations (fun _ => none)
        (I18nManager.freshWorld emptyStorage) "en").2.state.loadedLanguages ∧
    (I18nManager.loadTranslations (fun _ => none)
        (I18nManager.loadTranslations (fun _ => none)
          (I18nManager.freshWorld emptyStorage) "en").2 "en").1 = 0 :=
  C5_fetch_fallback_no_retry (fun _ => none) (I18nManager.freshWorld emptyStorage) "en"
    (by decide)

/-! ## BaseComponent lemmas shared by C1 and C2 -/

theorem setState_config (c : Component) (f : CompState → CompState) :
    (BaseComponent.setState c f).config = c.config := by
  unfold BaseComponent.setState
  split <;> rfl

theorem setState_state_of_tracking (c : Component) (f : CompState → CompState)
    (h : c.config.enableStateTracking = true) :
    (BaseComponent.setState c f).state = f c.state := by
  unfold BaseComponent.setState
  simp [h]

theorem setElement_state (c : Component) : (BaseComponent.setElement c).state = c.state := rfl

theorem setElement_config (c : Component) :
    (BaseComponent.setElement c).config = c.config := rfl

/-- On a component with state tracking enabled, a successful `init`
leaves `initialized = true`, and a successful `mount` of an
already-initialized component keeps it; both preserve the
configuration.  (Mutual induction on the fuel.) -/
theorem init_mount_invariant (fuel : Nat) :
    (∀ (env : CompEnv) (c c' : Component), c.config.enableStateTracking = true →
        BaseComponent.init env fuel c = .ok c' →
          c'.state.initialized = true ∧ c'.config = c.config) ∧
    (∀ (env : CompEnv) (c c' : Component), c.config.enableStateTracking = true →
        c.state.initialized = true →
        BaseComponent.mount env fuel c = .ok c' →
          c'.state.initialized = true ∧ c'.config = c.config) := by
  induction fuel with
  | zero =>
      constructor
      · intro env c c' _ h
        simp [BaseComponent.init] at h
      · intro env c c' _ _ h
        simp [BaseComponent.mount] at h
  | succ n ih =>
      constructor
      · intro env c c' htr h
        rw [BaseComponent.init] at h
        by_cases h1 : c.state.initialized
        · simp [h1] at h
          exact h ▸ ⟨h1, rfl⟩
        · simp [h1] at h
          by_cases h2 : env.initStepsOk
          · simp [h2] at h
            by_cases h3 : env.afterInitOk
            case neg => simp [h3] at h
            · simp [h3] at h
              by_cases h4 : (BaseComponent.setState c fun s => { s with initialized := true
                  }).config.autoMount = true ∧
                  (BaseComponent.setState c fun s => { s with initialized := true
                  }).container = true
              · simp only [h4, and_self, if_pos] at h
                rcases hm : BaseComponent.mount env n
                    (BaseComponent.setState c fun s => { s with initialized := true }) with
                  c2 | c2 <;> rw [hm] at h <;> simp at h
                have htr1 : (BaseComponent.setState c fun s =>
                    { s with initialized := true }).config.enableStateTracking = true := by
                  rw [setState_config]; exact htr
                have hin1 : (BaseComponent.setState c fun s =>
                    { s with initialized := true }).state.initialized = true := by
                  rw [setState_state_of_tracking _ _ htr]
                have := ih.2 env _ c2 htr1 hin1 hm
                rw [← h]
                exact ⟨this.1, this.2.trans (setState_config _ _)⟩
              · have h4' : ¬ ((BaseComponent.setState c fun s => { s with initialized := true
                    }).config.autoMount = true ∧
                    (BaseComponent.setState c fun s => { s with initialized := true
                    }).container = true) := h4
                simp only [if_neg h4'] at h
                simp only [Except.ok.injEq] at h
                subst h
                refine ⟨?_, setState_config _ _⟩
                rw [setState_state_of_tracking _ _ htr]
          · simp [h2] at h
      · intro env c c' htr hinit h
        rw [BaseComponent.mount] at h
        by_cases h1 : c.state.mounted
        · simp [h1] at h
          exact h ▸ ⟨hinit, rfl⟩
        · simp only [h1, if_neg, hinit, if_pos, Bool.false_eq_true] at h
          by_cases h2 : c.container
          · by_cases h3 : env.mountStepsOk
            · by_cases h4 : env.afterMountOk
              · simp [h2, h3, h4] at h
                rw [← h]
                constructor
                · rw [setState_state_of_tracking]
                  · rw [setElement_state]; exact hinit
                  · rw [setElement_config]; exact htr
                · rw [setState_config, setElement_config]
              · simp [h2, h3, h4] at h
            · simp [h2, h3] at h
          · simp [h2] at h

/-! ## Claim C2 -/

/-- Counterexample to C2 as stated: a component constructed with
`enableStateTracking: false` — `setState` is then a no-op (lines
806-808), so after `destroy()` completes, `state.destroyed` is STILL
`false` (and a later `destroy()` call is not a no-op: it re-runs the
whole teardown). -/
theorem C2_counterexample_untracked_destroy :
    untrackedComponent.state.destroyed = false ∧
    (BaseComponent.destroy allStepsOk untrackedComponent).state.destroyed = false := by
  decide

/-- Claim C2 (amended): for every component with state tracking enabled
(the default) whose destroy steps raise no error, `destroy()` ends with
`destroyed = true, mounted = false, initialized = false`; `destroy()` on
an already-destroyed component is a no-op unconditionally; and a
successful `mount()` on an unmounted component always ends initialized
and mounted (when the component was uninitialized, `mount` first runs
`init`, which sets `initialized`). -/
theorem C2_lifecycle_state_machine :
    (∀ (env : CompEnv) (c : Component), c.config.enableStateTracking = true →
        env.destroyStepsOk = true → c.state.destroyed = false →
          (BaseComponent.destroy env c).state =
            { initialized := false, mounted := false, destroyed := true,
              error := c.state.error }) ∧
    (∀ (env : CompEnv) (c : Component), c.state.destroyed = true →
        BaseComponent.destroy env c = c) ∧
    (∀ (env : CompEnv) (fuel : Nat) (c c' : Component),
        c.config.enableStateTracking = true → c.state.mounted = false →
        BaseComponent.mount env fuel c = .ok c' →
          c'.state.initialized = true ∧ c'.state.mounted = true) := by
  refine ⟨?_, ?_, ?_⟩
  · intro env c htr hok hnd
    unfold BaseComponent.destroy
    simp [hnd, hok, setState_state_of_tracking _ _ htr]
  · intro env c hd
    unfold BaseComponent.destroy
    simp [hd]
  · intro env fuel c c' htr hnm h
    cases fuel with
    | zero => simp [BaseComponent.mount] at h
    | succ n =>
        rw [BaseComponent.mount] at h
        simp only [hnm, Bool.false_eq_true, if_false] at h
        by_cases hinit : c.state.initialized
        · simp only [hinit, if_pos] at h
          by_cases h2 : c.container
          · by_cases h3 : env.mountStepsOk
            · by_cases h4 : env.afterMountOk
              · simp [h2, h3, h4] at h
                rw [← h]
                constructor
                · rw [setState_state_of_tracking]
                  · rw [setElement_state]; exact hinit
                  · rw [setElement_config]; exact htr
                · rw [setState_state_of_tracking]
                  · rw [setElement_config]; exact htr
              · simp [h2, h3, h4] at h
            · simp [h2, h3] at h
          · simp [h2] at h
        · simp only [hinit, Bool.false_eq_true, if_false] at h
          rcases hi : BaseComponent.init env n c with c0 | c0 <;> rw [hi] at h <;> simp at h
          obtain ⟨hin0, hcfg0⟩ := (init_mount_invariant n).1 env c c0 htr hi
          have htr0 : c0.config.enableStateTracking = true := by rw [hcfg0]; exact htr
          by_cases h2 : c0.container
          · by_cases h3 : env.mountStepsOk
            · by_cases h4 : env.afterMountOk
              · simp [h2, h3, h4] at h
                rw [← h]
                constructor
                · rw [setState_state_of_tracking]
                  · rw [setElement_state]; exact hin0
                  · rw [setElement_config]; exact htr0
                · rw [setState_state_of_tracking]
                  · rw [setElement_config]; exact htr0
              · simp [h2, h3, h4] at h
            · simp [h2, h3] at h
          · simp [h2] at h

/-- Witness for C2 (amended): destroying a freshly mounted tracked
component clears all three flags; destroy is a no-op on a destroyed
component; mounting a fresh tracked component with a container succeeds
(fuel 3 covers the mount-init-automount round) and ends initialized and
mounted. -/
theorem C2_lifecycle_state_machine_witness :
    (BaseComponent.destroy allStepsOk
        { state := { initialized := true, mounted := true, destroyed := false, error := false },
          config := { autoMount := true, enableStateTracking := true },
          container := true, element := true }).state =
      { initialized := false, mounted := false, destroyed := true, error := false } ∧
    BaseComponent.destroy allStepsOk
        { state := { initialized := false, mounted := false, destroyed := true, error := false },
          config := { autoMount := true, enableStateTracking := true },
          container := false, element := false } =
      { state := { initialized := false, mounted := false, destroyed := true, error := false },
        config := { autoMount := true, enableStateTracking := true },
        container := false, element := false } ∧
    (({ state := { initialized := true, mounted := true, destroyed := false, error := false },
        config := { autoMount := true, enableStateTracking := true },
        container := true, element := true } : Component).state.initialized = true ∧
     ({ state := { initialized := true, mounted := true, destroyed := false, error := false },
        config := { autoMount := true, enableStateTracking := true },
        container := true, element := true } : Component).state.mounted = true) :=
  ⟨C2_lifecycle_state_machine.1 allStepsOk _ (by decide) (by decide) (by decide),
   C2_lifecycle_state_machine.2.1 allStepsOk _ (by decide),
   C2_lifecycle_state_machine.2.2 allStepsOk 3
     { state := { initialized := false, mounted := false, destroyed := false, error := false },
       config := { autoMount := true, enableStateTracking := true },
       container := true, element := false }
     { state := { initialized := true, mounted := true, destroyed := false, error := false },
       config := { autoMount := true, enableStateTracking := true },
       container := true, element := true }
     (by decide) (by decide) rfl⟩

/-! ## Claim C1 -/

theorem saveTheme_failing (w : ThemeWorld) (hf : w.storage.fails = true) :
    (ThemeManager.saveTheme w).storage.data = w.storage.data ∧
    (ThemeManager.saveTheme w).state = w.state := by
  unfold ThemeManager.saveTheme Storage.setItem
  simp [hf]

/-- Counterexample to C1 as stated: `BaseComponent.mount` on a component
with no container — a missing DOM element — throws
`No container specified for mounting` inside its try block, and the
catch RE-THROWS it (line 643) after recording the error, so the
operation terminates by propagating the exception to its caller. -/
theorem C1_counterexample_mount_rethrows :
    BaseComponent.mount allStepsOk 5 containerlessComponent =
      .error
        { state := { initialized := true, mounted := false, destroyed := false, error := true },
          config := { autoMount := true, enableStateTracking := true },
          container := false, element := false } := rfl

/-- Claim C1 (amended): localStorage exceptions during theme load/save
and fetch failures while loading locale JSON are caught locally and
recovered with fallback defaults (load falls back to `"auto"`, save
leaves the stored data alone, the i18n manager falls back to the
built-in English table) — but the BaseComponent lifecycle operations
re-throw: `mount` on an unmounted, initialized component with no
container always propagates an error to its caller, whatever the
environment. -/
theorem C1_error_recovery_except_lifecycle :
    (∀ w : ThemeWorld, w.storage.fails = true →
        (ThemeManager.loadTheme w).state.currentTheme = "auto") ∧
    (∀ w : ThemeWorld, w.storage.fails = true →
        (ThemeManager.saveTheme w).storage.data = w.storage.data) ∧
    (∀ (env : FetchEnv) (w : I18nWorld), env "/locales/en.json" = none →
        "en" ∉ w.state.loadedLanguages →
          I18nManager.mapGet
              (I18nManager.loadTranslations env w "en").2.translations "en" =
            some I18nManager.englishTranslations) ∧
    (∀ (env : CompEnv) (fuel : Nat) (c : Component),
        c.state.mounted = false → c.state.initialized = true → c.container = false →
          BaseComponent.mount env (fuel + 1) c = .error (BaseComponent.setError c)) := by
  refine ⟨?_, ?_, ?_, ?_⟩
  · intro w hf
    exact loadTheme_failing w hf
  · intro w hf
    exact (saveTheme_failing w hf).1
  · intro env w henv hno
    simp [I18nManager.loadTranslations, I18nManager.loadBuiltInEnglishTranslations,
      hno, henv, mapGet_mapSet_self]
  · intro env fuel c hnm hinit hnc
    rw [BaseComponent.mount]
    simp [hnm, hinit, hnc]

/-- Witness for C1 (amended): a failing storage makes the load fall back
to `"auto"` and the save a no-op; a failed English fetch installs the
built-in table; the containerless component's mount propagates. -/
theorem C1_error_recovery_except_lifecycle_witness :
    (ThemeManager.loadTheme
        { state := { currentTheme := "light", systemPreference := "light" },
          storage := { data := [], fails := true, log := [] },
          dataTheme := none }).state.currentTheme = "auto" ∧
    (ThemeManager.saveTheme
        { state := { currentTheme := "light", systemPreference := "light" },
          storage := { data := [], fails := true, log := [] },
          dataTheme := none }).storage.data =
      ({ state := { currentTheme := "light", systemPreference := "light" },
         storage := { data := [], fails := true, log := [] },
         dataTheme := none } : ThemeWorld).storage.data ∧
    I18nManager.mapGet
        (I18nManager.loadTranslations (fun _ => none)
          (I18nManager.freshWorld emptyStorage) "en").2.translations "en" =
      some I18nManager.englishTranslations ∧
    BaseComponent.mount allStepsOk (4 + 1) containerlessComponent =
      .error (BaseComponent.setError containerlessComponent) :=
  ⟨C1_error_recovery_except_lifecycle.1 _ (by decide),
   C1_error_recovery_except_lifecycle.2.1 _ (by decide),
   C1_error_recovery_except_lifecycle.2.2.1 (fun _ => none)
     (I18nManager.freshWorld emptyStorage) rfl (by decide),
   C1_error_recovery_except_lifecycle.2.2.2 allStepsOk 4 containerlessComponent
     (by decide) (by decide) (by decide)⟩

/-! ## Claim C8 -/

theorem mem_insertByPriority (l x : Listener) (ls : List Listener) :
    x ∈ EventBusClass.insertByPriority l ls ↔ x = l ∨ x ∈ ls := by
  induction ls with
  | nil => simp [EventBusClass.insertByPriority]
  | cons y ys ih =>
      by_cases h : l.priority < y.priority
      · simp [EventBusClass.insertByPriority, h, ih]
        tauto
      · simp [EventBusClass.insertByPriority, h]

theorem insertByPriority_sorted (l : Listener) (ls : List Listener)
    (h : ls.Pairwise descPriority) :
    (EventBusClass.insertByPriority l ls).Pairwise descPriority := by
  induction ls with
  | nil => simp [EventBusClass.insertByPriority]
  | cons y ys ih =>
      rcases List.pairwise_cons.mp h with ⟨hy, hys⟩
      by_cases hp : l.priority < y.priority
      · simp only [EventBusClass.insertByPriority, hp, if_pos]
        refine List.pairwise_cons.mpr ⟨?_, ih hys⟩
        intro z hz
        rcases (mem_insertByPriority l z ys).mp hz with rfl | hzys
        · exact le_of_lt hp
        · exact hy z hzys
      · simp only [EventBusClass.insertByPriority, hp, if_neg]
        refine List.pairwise_cons.mpr ⟨?_, h⟩
        intro z hz
        rcases List.mem_cons.mp hz with rfl | hzys
        · exact le_of_not_lt hp
        · exact le_trans (hy z hzys) (le_of_not_lt hp)

theorem sortByPriority_sorted (ls : List Listener) :
    (EventBusClass.sortByPriority ls).Pairwise descPriority := by
  induction ls with
  | nil => simp [EventBusClass.sortByPriority]
  | cons y ys ih => exact insertByPriority_sorted y _ ih

theorem foldl_erase_sublist (rs ls : List Listener) :
    (rs.foldl EventBusClass.eraseListener ls).Sublist ls := by
  induction rs generalizing ls with
  | nil => simp
  | cons r rs ih =>
      simp only [List.foldl_cons]
      exact (ih (EventBusClass.eraseListener ls r)).trans (List.erase_sublist r ls)

theorem not_mem_foldl_erase (rs : List Listener) (ls : List Listener) (l : Listener)
    (hnd : ls.Nodup) (hl : l ∈ rs) :
    l ∉ rs.foldl EventBusClass.eraseListener ls := by
  induction rs generalizing ls with
  | nil => cases hl
  | cons r rs ih =>
      simp only [List.foldl_cons]
      rcases List.mem_cons.mp hl with rfl | hl'
      · intro hmem'
        have hsubl := foldl_erase_sublist rs (EventBusClass.eraseListener ls l)
        have h2 : l ∈ ls.erase l := hsubl.subset hmem'
        rcases (List.Nodup.mem_erase_iff hnd).mp h2 with ⟨hne, _⟩
        exact hne rfl
      · exact ih (ls.erase r) (hnd.erase r) hl'

/-- Counterexample to C8 as stated: a `once: true` listener whose
callback THROWS is invoked by an emit but survives it — the `once` check
on line 514 sits after the callback call inside the try, so a throwing
callback is never marked for removal, and the next emit invokes the
listener again.  "Invoked at most once across all emits" fails. -/
theorem C8_counterexample_throwing_once_listener :
    throwingOnceListener.once = true ∧
    throwingOnceListener ∈
      (EventBusClass.emit allCallbacksThrow [throwingOnceListener]).1 ∧
    throwingOnceListener ∈
      (EventBusClass.emit allCallbacksThrow
        (EventBusClass.emit allCallbacksThrow [throwingOnceListener]).2).1 := by
  decide

/-- Claim C8 (amended): the per-event listener list is always sorted by
non-increasing priority — `on()` re-sorts after every insertion and
`emit()`'s removals preserve the order — so `emit()` invokes the
listeners from highest to lowest priority; and every `once: true`
listener WHOSE CALLBACK RETURNS NORMALLY is removed by the emit that
invoked it and is never invoked again (a throwing once-listener survives,
as the counterexample shows). -/
theorem C8_priority_order_and_once_removal :
    (∀ (ls : List Listener) (l : Listener),
        (EventBusClass.On ls l).Pairwise descPriority) ∧
    (∀ (cbOk : Nat → Bool) (ls : List Listener), ls.Pairwise descPriority →
        ((EventBusClass.emit cbOk ls).2).Pairwise descPriority) ∧
    (∀ (cbOk : Nat → Bool) (ls : List Listener), ls.Pairwise descPriority →
        (((EventBusClass.emit cbOk ls).1).map Listener.priority).Pairwise
          (fun a b => b ≤ a)) ∧
    (∀ (cbOk : Nat → Bool) (ls : List Listener) (l : Listener),
        (ls.map Listener.id).Nodup → l ∈ ls → l.once = true → cbOk l.id = true →
          l ∉ (EventBusClass.emit cbOk ls).2 ∧
          l ∉ (EventBusClass.emit cbOk (EventBusClass.emit cbOk ls).2).1) := by
  refine ⟨?_, ?_, ?_, ?_⟩
  · intro ls l
    exact sortByPriority_sorted (ls ++ [l])
  · intro cbOk ls h
    exact List.Pairwise.sublist (foldl_erase_sublist _ ls) h
  · intro cbOk ls h
    exact h.map Listener.priority (fun a b hab => hab)
  · intro cbOk ls l hnd hmem honce hok
    have hnodup : ls.Nodup := hnd.of_map
    have hrem : l ∈ EventBusClass.emitRemovals cbOk ls := by
      simp [EventBusClass.emitRemovals, List.mem_filter, hmem, honce, hok]
    have hout : l ∉ (EventBusClass.emit cbOk ls).2 :=
      not_mem_foldl_erase _ ls l hnodup hrem
    exact ⟨hout, hout⟩

/-- Witness for C8 (amended): two listeners of priorities 1 and 5 — `on`
yields the 5-before-1 order; an emit where every callback returns
removes the `once` listener, which the next emit therefore skips. -/
theorem C8_priority_order_and_once_removal_witness :
    ((EventBusClass.emit (fun _ => true)
        [{ id := 2, priority := 5, once := true },
         { id := 1, priority := 1, once := false }]).2).Pairwise descPriority ∧
    ((({ id := 2, priority := 5, once := true } : Listener) ∉
        (EventBusClass.emit (fun _ => true)
          [{ id := 2, priority := 5, once := true },
           { id := 1, priority := 1, once := false }]).2) ∧
     (({ id := 2, priority := 5, once := true } : Listener) ∉
        (EventBusClass.emit (fun _ => true)
          (EventBusClass.emit (fun _ => true)
            [{ id := 2, priority := 5, once := true },
             { id := 1, priority := 1, once := false }]).2).1)) :=
  ⟨C8_priority_order_and_once_removal.2.1 (fun _ => true) _
     (by simp [descPriority]),
   C8_priority_order_and_once_removal.2.2.2 (fun _ => true) _
     { id := 2, priority := 5, once := true }
     (by decide) (by decide) (by decide) (by decide)⟩
